import Mathlib

/-!
# GitLab webhook handlers of `routes/wechat/gitlab.go`

A shallow embedding of the three handlers `GitlabHandler`, `handleMergeRequestHook` and
`handlePipelineHook`, together with the parts of the Go standard library they rely on
(`fmt.Sprint`, `strings.Join`, map indexing), followed by theorems about them.

The collaborators the handlers call into are inputs of the model:

* the `echo.Context` is a record holding what `c.Param`, `c.Request().Header.Get`, `c.Bind`
  and `c.String` answer for the request at hand;
* `send` (the package-level delivery function) is a function from routing key and content to an
  optional error (`none` is Go's `nil`).

Every call a handler makes that is visible from outside (`c.Bind`, `send`, `c.Logger().Error`,
`c.String`) is recorded, in order, in the list of effects of the result. The error `c.String`
returns after writing the response is an input too: a handler that ends in
`return c.String(...)` returns that error.
-/

set_option autoImplicit false

namespace Wechat

/-! ## Payload types -/

/-- Go `type user struct`. -/
structure user where
  Name : String
  Username : String
deriving DecidableEq, Repr

/-- Go `type project struct`. `ID` is an `int32`. -/
structure project where
  ID : Int
  Name : String
  URL : String
deriving DecidableEq, Repr

/-- Go `type assignee struct`. -/
structure assignee where
  Name : String
  Username : String
deriving DecidableEq, Repr

/-- Go `type mergeRequestObjectAttributes struct`. `MergeRequestID` is an `int32`. -/
structure mergeRequestObjectAttributes where
  URL : String
  Title : String
  Description : String
  State : String
  Action : String
  MergeRequestID : Int
deriving DecidableEq, Repr

/-- Go `type mergeRequestPayload struct`. A missing or `null` `assignees` field leaves the slice
`nil`, which has length zero: it is the empty list here. -/
structure mergeRequestPayload where
  User : user
  Project : project
  ObjectAttributes : mergeRequestObjectAttributes
  Assignees : List assignee
deriving DecidableEq, Repr

/-- Go `type pipelineObjectAttributes struct`. `ID` is an `int32`. -/
structure pipelineObjectAttributes where
  ID : Int
  Status : String
  Ref : String
deriving DecidableEq, Repr

/-- Go `type commitAuthor struct`. -/
structure commitAuthor where
  Name : String
  Email : String
deriving DecidableEq, Repr

/-- Go `type commit struct`. -/
structure commit where
  URL : String
  Message : String
  Author : commitAuthor
deriving DecidableEq, Repr

/-- Go `type pipelinePayload struct`. -/
structure pipelinePayload where
  Project : project
  ObjectAttributes : pipelineObjectAttributes
  Commit : commit
deriving DecidableEq, Repr

/-- Go `type piplineContentData struct`. -/
structure piplineContentData where
  Text : String
  ClassName : String
deriving DecidableEq, Repr

/-- Go `var piplineContentDataMap = map[string]piplineContentData{...}`, as its list of
key/value entries. -/
def piplineContentDataMap : List (String × piplineContentData) :=
  [("success", ⟨"成功🎉", "info"⟩),
   ("failed", ⟨"失败🤔", "warning"⟩)]

/-- The comma-ok form of a Go map lookup: the value stored under `k`, if any. -/
def mapLookup (m : List (String × piplineContentData)) (k : String) : Option piplineContentData :=
  match m with
  | [] => none
  | (k', v) :: rest => if k' = k then some v else mapLookup rest k

/-- Go map indexing `m[k]`: the stored value, or the zero value of the element type when the key
is absent. -/
def mapIndex (m : List (String × piplineContentData)) (k : String) : piplineContentData :=
  match mapLookup m k with
  | some v => v
  | none => ⟨"", ""⟩

/-! ## `fmt.Sprint` and `strings.Join` -/

/-- The operands the handlers pass to `fmt.Sprint`: Go strings and `int32` values. -/
inductive Operand where
  | str (s : String)
  | int32 (n : Int)
deriving DecidableEq, Repr

/-- Go `reflect.TypeOf(arg).Kind() == reflect.String`. -/
def Operand.isString : Operand → Bool
  | .str _ => true
  | .int32 _ => false

/-- The `%v` rendering of an `int32`: decimal digits, with a leading minus sign when negative. -/
def formatInt32 : Int → String
  | Int.ofNat m => Nat.repr m
  | Int.negSucc m => "-" ++ Nat.repr (m + 1)

/-- Go `p.printArg(arg, 'v')` for the two operand kinds in use. -/
def Operand.format : Operand → String
  | .str s => s
  | .int32 n => formatInt32 n

/-- Go `(*pp).doPrint`: a space is written between two operands when neither is a string.
`first` stands for `argNum == 0`. -/
def doPrint : List Operand → Bool → Bool → String → String
  | [], _, _, buf => buf
  | arg :: rest, first, prevString, buf =>
    let isString := arg.isString
    let buf1 := if !first && !isString && !prevString then buf ++ " " else buf
    doPrint rest false isString (buf1 ++ arg.format)

/-- Go `fmt.Sprint`. -/
def Sprint (a : List Operand) : String :=
  doPrint a true false ""

/-- Go `strings.Join`: the empty string for no element, the element itself for one, otherwise
the first element followed by each further element preceded by the separator. -/
def stringsJoin (elems : List String) (sep : String) : String :=
  match elems with
  | [] => ""
  | [e] => e
  | e :: rest => rest.foldl (fun b s => b ++ sep ++ s) e

/-! ## Request context, effects and results -/

/-- Which payload type a `c.Bind` call decodes the request body into. -/
inductive BindTarget where
  | mergeRequest
  | pipeline
deriving DecidableEq, Repr

/-- The externally visible calls of a handler. -/
inductive Effect (ε : Type) where
  /-- `c.Bind(payload)`: the request body was deserialized. -/
  | bind (target : BindTarget)
  /-- `send(key, content)`. -/
  | send (key content : String)
  /-- `c.Logger().Error(err)`. -/
  | logError (err : ε)
  /-- `c.String(code, body)`: the response was written. -/
  | string (code : Nat) (body : String)
deriving DecidableEq, Repr

/-- What the `echo.Context` of one request answers. `Bind` decodes the same body into either
payload type, so both outcomes are part of the request. -/
structure Context (ε : Type) where
  /-- `c.Param(name)`. -/
  Param : String → String
  /-- `c.Request().Header.Get(name)`. -/
  Header : String → String
  /-- `c.Bind(new(mergeRequestPayload))`. -/
  BindMergeRequest : Except ε mergeRequestPayload
  /-- `c.Bind(new(pipelinePayload))`. -/
  BindPipeline : Except ε pipelinePayload
  /-- The error `c.String(code, body)` returns after writing the response (`none` is `nil`). -/
  WriteString : Nat → String → Option ε

/-- The outcome of a handler: the effects in order, and the returned `error` (`none` is
`nil`). -/
structure Result (ε : Type) where
  effects : List (Effect ε)
  err : Option ε
deriving DecidableEq, Repr

/-- Go `http.StatusOK`. -/
def StatusOK : Nat := 200

/-- The statement sequence
`err := send(key, content); if err != nil { c.Logger().Error(err); return err }`, run after the
effects `tr`: the effects so far and the error returned early, if any. -/
def sendChecked {ε : Type} (send : String → String → Option ε) (key content : String)
    (tr : List (Effect ε)) : List (Effect ε) × Option ε :=
  match send key content with
  | some err => (tr ++ [Effect.send key content, Effect.logError err], some err)
  | none => (tr ++ [Effect.send key content], none)

/-! ## The handlers -/

/-- The loop filling `assignees := make([]string, len(payload.Assignees))` index by index. -/
def assigneeNames (src : List assignee) : List String :=
  src.enum.foldl
    (fun acc ia => acc.set ia.1 (Sprint [.str ia.2.Name, .str "(", .str ia.2.Username, .str ")"]))
    (List.replicate src.length "")

/-- The `content` of the `"open"` branch of `handleMergeRequestHook`. -/
def mergeRequestOpenContent (payload : mergeRequestPayload) : String :=
  let description :=
    if payload.ObjectAttributes.Description = "" then "无"
    else payload.ObjectAttributes.Description
  let assignees := assigneeNames payload.Assignees
  Sprint [
    .str "### [", .str payload.Project.Name, .str "](", .str payload.Project.URL,
    .str ") 有新的合并请求 [!", .int32 payload.ObjectAttributes.MergeRequestID, .str "](",
    .str payload.ObjectAttributes.URL, .str ")\n",
    .str "> 标题: ", .str payload.ObjectAttributes.Title, .str "\n",
    .str "> 描述: ", .str description, .str "\n",
    .str "> 提交: ", .str payload.User.Name, .str "(", .str payload.User.Username, .str ")\n",
    .str "> 审核: ", .str (stringsJoin assignees " "), .str "\n",
    .str "> 操作: [[查看](", .str payload.ObjectAttributes.URL, .str ")]"]

/-- The `content` of the `"merge"` branch of `handleMergeRequestHook`. -/
def mergeRequestMergeContent (payload : mergeRequestPayload) : String :=
  Sprint [
    .str "### [", .str payload.Project.Name, .str "](", .str payload.Project.URL,
    .str ") 合并请求 [!", .int32 payload.ObjectAttributes.MergeRequestID, .str "](",
    .str payload.ObjectAttributes.URL, .str ") 已合并\n",
    .str "> 合并: ", .str payload.User.Name, .str "(", .str payload.User.Username, .str ")\n",
    .str "> 操作: [[查看](", .str payload.ObjectAttributes.URL, .str ")]"]

/-- Go `handleMergeRequestHook`. -/
def handleMergeRequestHook {ε : Type} (send : String → String → Option ε) (c : Context ε) :
    Result ε :=
  let key := c.Param "key"
  match c.BindMergeRequest with
  | .error err => ⟨[Effect.bind .mergeRequest], some err⟩
  | .ok payload =>
    let t0 : List (Effect ε) := [Effect.bind .mergeRequest]
    -- 创建
    let r1 : List (Effect ε) × Option ε :=
      if payload.ObjectAttributes.Action = "open" then
        sendChecked send key (mergeRequestOpenContent payload) t0
      else (t0, none)
    match r1 with
    | (t1, some err) => ⟨t1, some err⟩
    | (t1, none) =>
      -- 合并
      let r2 : List (Effect ε) × Option ε :=
        if payload.ObjectAttributes.Action = "merge" then
          sendChecked send key (mergeRequestMergeContent payload) t1
        else (t1, none)
      match r2 with
      | (t2, some err) => ⟨t2, some err⟩
      | (t2, none) => ⟨t2 ++ [Effect.string StatusOK "OK"], c.WriteString StatusOK "OK"⟩

/-- The `content` of `handlePipelineHook`, built inside the status guard. -/
def pipelineContent (payload : pipelinePayload) : String :=
  let pipelineStatus := payload.ObjectAttributes.Status
  let contentData := mapIndex piplineContentDataMap pipelineStatus
  Sprint [
    .str "仓库", .str payload.Project.Name, .str "的", .str payload.ObjectAttributes.Ref,
    .str "分支部署", .str contentData.Text, .str "\n",
    .str "> <font color=\"", .str contentData.ClassName, .str "\">", .str payload.Commit.Message,
    .str "</font>\n",
    .str "> <font color=\"comment\">", .str payload.Commit.Author.Email, .str "</font>\n",
    .str "> 点击进入 [git提交详情页面](", .str payload.Commit.URL, .str ")\n",
    .str "> 点击进入 [ci构建详情页面](", .str payload.Project.URL, .str "/pipelines/",
    .int32 payload.ObjectAttributes.ID, .str ")"]

/-- Go `handlePipelineHook`. -/
def handlePipelineHook {ε : Type} (send : String → String → Option ε) (c : Context ε) :
    Result ε :=
  let key := c.Param "key"
  match c.BindPipeline with
  | .error err => ⟨[Effect.bind .pipeline], some err⟩
  | .ok payload =>
    let t0 : List (Effect ε) := [Effect.bind .pipeline]
    let pipelineStatus := payload.ObjectAttributes.Status
    let r1 : List (Effect ε) × Option ε :=
      if pipelineStatus = "success" ∨ pipelineStatus = "failed" then
        sendChecked send key (pipelineContent payload) t0
      else (t0, none)
    match r1 with
    | (t1, some err) => ⟨t1, some err⟩
    | (t1, none) => ⟨t1 ++ [Effect.string StatusOK "OK"], c.WriteString StatusOK "OK"⟩

/-- Go `GitlabHandler`. -/
def GitlabHandler {ε : Type} (send : String → String → Option ε) (c : Context ε) : Result ε :=
  let event := c.Header "X-Gitlab-Event"
  if event = "Merge Request Hook" then
    handleMergeRequestHook send c
  else if event = "Pipeline Hook" then
    handlePipelineHook send c
  else
    ⟨[Effect.string StatusOK "OK"], c.WriteString StatusOK "OK"⟩

/-! ## Observations on results -/

/-- The `send` calls among the effects, in order, as pairs of routing key and content. -/
def senderCalls {ε : Type} : List (Effect ε) → List (String × String)
  | [] => []
  | Effect.send k m :: rest => (k, m) :: senderCalls rest
  | Effect.bind _ :: rest => senderCalls rest
  | Effect.logError _ :: rest => senderCalls rest
  | Effect.string _ _ :: rest => senderCalls rest

/-- The responses written with `c.String` among the effects, in order. -/
def responses {ε : Type} : List (Effect ε) → List (Nat × String)
  | [] => []
  | Effect.string code body :: rest => (code, body) :: responses rest
  | Effect.bind _ :: rest => responses rest
  | Effect.send _ _ :: rest => responses rest
  | Effect.logError _ :: rest => responses rest

/-- The result of a handler that deserialized into `target`, called `send key content` and then
either logged and returned the error of `send`, or answered 200 "OK" and returned `written`,
the error of that `c.String` call. -/
def afterSend {ε : Type} (send : String → String → Option ε) (written : Option ε)
    (target : BindTarget) (key content : String) : Result ε :=
  match send key content with
  | some err =>
    ⟨[Effect.bind target, Effect.send key content, Effect.logError err], some err⟩
  | none =>
    ⟨[Effect.bind target, Effect.send key content, Effect.string 200 "OK"], written⟩

/-- The text `t` occurs in `s`. -/
def Occurs (t s : String) : Prop :=
  ∃ before after : String, s = before ++ t ++ after

/-- The string `s` ends with `t`. -/
def EndsIn (s t : String) : Prop :=
  ∃ before : String, s = before ++ t

/-- The text of `s` up to its first newline character (all of `s` when it has none). -/
def firstLine (s : String) : String :=
  ⟨s.data.takeWhile (fun ch => ch ≠ Char.ofNat 10)⟩

/-- The `Name(Username)` token of a reviewer. -/
def reviewerToken (a : assignee) : String :=
  a.Name ++ "(" ++ a.Username ++ ")"

/-- The reviewer text as the reviewers are listed: nothing for no reviewer, otherwise the
`Name(Username)` tokens in input order with one space between neighbours. -/
def reviewersText : List assignee → String
  | [] => ""
  | [a] => a.Name ++ "(" ++ a.Username ++ ")"
  | a :: b :: rest => a.Name ++ "(" ++ a.Username ++ ")" ++ " " ++ reviewersText (b :: rest)

/-- The string holds no newline character. -/
def NoNewline (s : String) : Prop :=
  Char.ofNat 10 ∉ s.data

instance (s : String) : Decidable (NoNewline s) :=
  inferInstanceAs (Decidable (Char.ofNat 10 ∉ s.data))

/-- The delivery contract of a result, `written` being the error of `c.String(200, "OK")`: the
response 200 "OK" is written exactly when every `send` call made succeeded (none made
included), and the returned error is then `written`, so that with a successful write the
response comes with no error exactly then; a failed `send` call is the only one, its error is
the returned one and no response is written. -/
def DeliveryContract {ε : Type} (send : String → String → Option ε) (written : Option ε)
    (r : Result ε) : Prop :=
  (responses r.effects = [(200, "OK")] ↔
    ∀ k m, (k, m) ∈ senderCalls r.effects → send k m = none) ∧
  ((∀ k m, (k, m) ∈ senderCalls r.effects → send k m = none) → r.err = written) ∧
  (written = none →
    ((responses r.effects = [(200, "OK")] ∧ r.err = none) ↔
      ∀ k m, (k, m) ∈ senderCalls r.effects → send k m = none)) ∧
  (∀ k m e, (k, m) ∈ senderCalls r.effects → send k m = some e →
    r.err = some e ∧ responses r.effects = [] ∧ senderCalls r.effects = [(k, m)])

/-! ## Sample requests -/

/-- An error type for the sample requests. -/
abbrev SampleError := String

/-- A delivery that succeeds. -/
def sendOk : String → String → Option SampleError := fun _ _ => none

/-- A delivery that fails. -/
def sendFails : String → String → Option SampleError := fun _ _ => some "delivery failed"

/-- A merge-request payload with two reviewers and an empty description. -/
def samplePayload (action : String) : mergeRequestPayload :=
  { User := ⟨"A", "a"⟩
    Project := ⟨7, "g/p", "http://x"⟩
    ObjectAttributes := ⟨"http://x/42", "Login", "", "opened", action, 42⟩
    Assignees := [⟨"B", "b"⟩, ⟨"C D", "c"⟩] }

/-- A pipeline payload with the given status. -/
def samplePipeline (status : String) : pipelinePayload :=
  { Project := ⟨7, "g/p", "http://x"⟩
    ObjectAttributes := ⟨15, status, "main"⟩
    Commit := ⟨"http://x/c/1", "fix", ⟨"Z", "z@example.com"⟩⟩ }

/-- A request with the given event header whose body deserializes into both payload types. -/
def sampleContext (event action status : String) : Context SampleError :=
  { Param := fun name => if name = "key" then "K" else ""
    Header := fun name => if name = "X-Gitlab-Event" then event else ""
    BindMergeRequest := .ok (samplePayload action)
    BindPipeline := .ok (samplePipeline status)
    WriteString := fun _ _ => none }

/-- The request of `sampleContext`, with a response write that fails. -/
def writeFailsContext (event action status : String) : Context SampleError :=
  { sampleContext event action status with WriteString := fun _ _ => some "write failed" }

/-- A pipeline payload with status "success" whose ref holds a newline. -/
def newlineRefPipeline : pipelinePayload :=
  { samplePipeline "success" with
    ObjectAttributes := ⟨15, "success", "release\nv2"⟩ }

/-- A pipeline request carrying `newlineRefPipeline`. -/
def newlineRefContext : Context SampleError :=
  { sampleContext "Pipeline Hook" "open" "success" with
    BindPipeline := .ok newlineRefPipeline }

/-- A request with the given event header whose body fails to deserialize. -/
def malformedContext (event : String) : Context SampleError :=
  { Param := fun name => if name = "key" then "K" else ""
    Header := fun name => if name = "X-Gitlab-Event" then event else ""
    BindMergeRequest := .error "bad body"
    BindPipeline := .error "bad body"
    WriteString := fun _ _ => none }

/-- A merge-request "open" request with the given reviewers. -/
def reviewContext (reviewers : List assignee) : Context SampleError :=
  { Param := fun name => if name = "key" then "K" else ""
    Header := fun name => if name = "X-Gitlab-Event" then "Merge Request Hook" else ""
    BindMergeRequest := .ok { samplePayload "open" with Assignees := reviewers }
    BindPipeline := .error "bad body"
    WriteString := fun _ _ => none }

/-! ## Lemmas on the library functions -/

theorem formatInt32_eq_toString (n : Int) : formatInt32 n = toString n := by
  cases n <;> rfl

theorem stringsJoin_eq_intercalate (elems : List String) (sep : String) :
    stringsJoin elems sep = String.intercalate sep elems := by
  cases elems with
  | nil => rfl
  | cons e rest =>
    cases rest with
    | nil => rfl
    | cons e2 r2 =>
      simp only [stringsJoin, String.intercalate]
      generalize e2 :: r2 = l
      induction l generalizing e with
      | nil => rfl
      | cons x xs ih => simp [String.intercalate.go, ih]

theorem sprint_token (a : assignee) :
    Sprint [.str a.Name, .str "(", .str a.Username, .str ")"] = reviewerToken a := by
  simp [Sprint, doPrint, Operand.isString, Operand.format, reviewerToken]

theorem fill_enumFrom (done : List String) (rest : List assignee) :
    (rest.enumFrom done.length).foldl
      (fun acc ia =>
        acc.set ia.1 (Sprint [.str ia.2.Name, .str "(", .str ia.2.Username, .str ")"]))
      (done ++ List.replicate rest.length "")
    = done ++ rest.map reviewerToken := by
  induction rest generalizing done with
  | nil => simp
  | cons a as ih =>
    have h := ih (done ++ [reviewerToken a])
    simp only [List.length_append, List.length_singleton, List.append_assoc,
      List.singleton_append] at h
    simp only [List.enumFrom_cons, List.foldl_cons, List.length_cons, List.replicate_succ,
      List.map_cons, sprint_token]
    rw [← h]
    congr 1
    simp [List.set_append]

theorem assigneeNames_eq_map (src : List assignee) :
    assigneeNames src = src.map reviewerToken := by
  have h := fill_enumFrom [] src
  simpa [assigneeNames, List.enum] using h

theorem not_endsIn_newline (x : String) : ¬ EndsIn (x ++ ")]") "\n" := by
  rintro ⟨before, h⟩
  have h2 := congrArg (fun s : String => s.data.getLast?) h
  simp [String.data_append] at h2

/-! ## The contents, line by line -/

theorem mergeRequestOpenContent_eq (p : mergeRequestPayload) :
    mergeRequestOpenContent p = String.intercalate "\n" [
      "### [" ++ p.Project.Name ++ "](" ++ p.Project.URL ++ ") 有新的合并请求 [!"
        ++ toString p.ObjectAttributes.MergeRequestID ++ "](" ++ p.ObjectAttributes.URL ++ ")",
      "> 标题: " ++ p.ObjectAttributes.Title,
      "> 描述: " ++ (if p.ObjectAttributes.Description = "" then "无"
        else p.ObjectAttributes.Description),
      "> 提交: " ++ p.User.Name ++ "(" ++ p.User.Username ++ ")",
      "> 审核: " ++ String.intercalate " " (p.Assignees.map reviewerToken),
      "> 操作: [[查看](" ++ p.ObjectAttributes.URL ++ ")]"] := by
  simp only [mergeRequestOpenContent, Sprint, doPrint, Operand.isString, Operand.format,
    String.intercalate, String.intercalate.go, formatInt32_eq_toString,
    stringsJoin_eq_intercalate, assigneeNames_eq_map]
  apply String.ext
  simp [String.data_append]

theorem mergeRequestMergeContent_eq (p : mergeRequestPayload) :
    mergeRequestMergeContent p = String.intercalate "\n" [
      "### [" ++ p.Project.Name ++ "](" ++ p.Project.URL ++ ") 合并请求 [!"
        ++ toString p.ObjectAttributes.MergeRequestID ++ "](" ++ p.ObjectAttributes.URL
        ++ ") 已合并",
      "> 合并: " ++ p.User.Name ++ "(" ++ p.User.Username ++ ")",
      "> 操作: [[查看](" ++ p.ObjectAttributes.URL ++ ")]"] := by
  simp only [mergeRequestMergeContent, Sprint, doPrint, Operand.isString, Operand.format,
    String.intercalate, String.intercalate.go, formatInt32_eq_toString]
  apply String.ext
  simp [String.data_append]

theorem pipelineContent_eq (p : pipelinePayload) :
    pipelineContent p = String.intercalate "\n" [
      "仓库" ++ p.Project.Name ++ "的" ++ p.ObjectAttributes.Ref ++ "分支部署"
        ++ (mapIndex piplineContentDataMap p.ObjectAttributes.Status).Text,
      "> <font color=\"" ++ (mapIndex piplineContentDataMap p.ObjectAttributes.Status).ClassName
        ++ "\">" ++ p.Commit.Message ++ "</font>",
      "> <font color=\"comment\">" ++ p.Commit.Author.Email ++ "</font>",
      "> 点击进入 [git提交详情页面](" ++ p.Commit.URL ++ ")",
      "> 点击进入 [ci构建详情页面](" ++ p.Project.URL ++ "/pipelines/"
        ++ toString p.ObjectAttributes.ID ++ ")"] := by
  simp only [pipelineContent, Sprint, doPrint, Operand.isString, Operand.format,
    String.intercalate, String.intercalate.go, formatInt32_eq_toString]
  apply String.ext
  simp [String.data_append]

theorem mapIndex_success : mapIndex piplineContentDataMap "success" = ⟨"成功🎉", "info"⟩ := by
  decide

theorem mapIndex_failed : mapIndex piplineContentDataMap "failed" = ⟨"失败🤔", "warning"⟩ := by
  decide

/-! ## The handlers, case by case -/

theorem handleMergeRequestHook_bind_error {ε : Type} (send : String → String → Option ε)
    (c : Context ε) (err : ε) (hb : c.BindMergeRequest = .error err) :
    handleMergeRequestHook send c = ⟨[Effect.bind .mergeRequest], some err⟩ := by
  simp [handleMergeRequestHook, hb]

theorem handleMergeRequestHook_open {ε : Type} (send : String → String → Option ε)
    (c : Context ε) (p : mergeRequestPayload) (hb : c.BindMergeRequest = .ok p)
    (ha : p.ObjectAttributes.Action = "open") :
    handleMergeRequestHook send c
      = afterSend send (c.WriteString 200 "OK") .mergeRequest (c.Param "key")
          (mergeRequestOpenContent p) := by
  simp only [handleMergeRequestHook, hb, ha, afterSend, sendChecked, StatusOK]
  cases send (c.Param "key") (mergeRequestOpenContent p) <;> simp

theorem handleMergeRequestHook_merge {ε : Type} (send : String → String → Option ε)
    (c : Context ε) (p : mergeRequestPayload) (hb : c.BindMergeRequest = .ok p)
    (ha : p.ObjectAttributes.Action = "merge") :
    handleMergeRequestHook send c
      = afterSend send (c.WriteString 200 "OK") .mergeRequest (c.Param "key")
          (mergeRequestMergeContent p) := by
  simp only [handleMergeRequestHook, hb, ha, afterSend, sendChecked, StatusOK]
  cases send (c.Param "key") (mergeRequestMergeContent p) <;> simp

theorem handleMergeRequestHook_other {ε : Type} (send : String → String → Option ε)
    (c : Context ε) (p : mergeRequestPayload) (hb : c.BindMergeRequest = .ok p)
    (ho : p.ObjectAttributes.Action ≠ "open") (hm : p.ObjectAttributes.Action ≠ "merge") :
    handleMergeRequestHook send c
      = ⟨[Effect.bind .mergeRequest, Effect.string 200 "OK"], c.WriteString 200 "OK"⟩ := by
  simp [handleMergeRequestHook, hb, ho, hm, StatusOK]

theorem handlePipelineHook_bind_error {ε : Type} (send : String → String → Option ε)
    (c : Context ε) (err : ε) (hb : c.BindPipeline = .error err) :
    handlePipelineHook send c = ⟨[Effect.bind .pipeline], some err⟩ := by
  simp [handlePipelineHook, hb]

theorem handlePipelineHook_known {ε : Type} (send : String → String → Option ε)
    (c : Context ε) (p : pipelinePayload) (hb : c.BindPipeline = .ok p)
    (hs : p.ObjectAttributes.Status = "success" ∨ p.ObjectAttributes.Status = "failed") :
    handlePipelineHook send c
      = afterSend send (c.WriteString 200 "OK") .pipeline (c.Param "key")
          (pipelineContent p) := by
  simp only [handlePipelineHook, hb, hs, afterSend, sendChecked, StatusOK]
  cases send (c.Param "key") (pipelineContent p) <;> simp

theorem handlePipelineHook_other {ε : Type} (send : String → String → Option ε)
    (c : Context ε) (p : pipelinePayload) (hb : c.BindPipeline = .ok p)
    (hs : ¬ (p.ObjectAttributes.Status = "success" ∨ p.ObjectAttributes.Status = "failed")) :
    handlePipelineHook send c
      = ⟨[Effect.bind .pipeline, Effect.string 200 "OK"], c.WriteString 200 "OK"⟩ := by
  simp [handlePipelineHook, hb, hs, StatusOK]

theorem senderCalls_afterSend {ε : Type} (send : String → String → Option ε)
    (written : Option ε) (target : BindTarget) (key content : String) :
    senderCalls (afterSend send written target key content).effects = [(key, content)] := by
  unfold afterSend
  cases send key content <;> rfl

/-! ## Routing -/

/-- C1, as amended: `GitlabHandler` routes on the value of the `X-Gitlab-Event` header only.
When the value is "Merge Request Hook" its result (effects and returned error) is that of
`handleMergeRequestHook`; when it is "Pipeline Hook" it is that of `handlePipelineHook`; for
every other value the only effect is the response 200 "OK" (no `Bind`, no `send`) and the
returned error is the one `c.String` returns, so none when the write succeeds. -/
theorem GitlabHandler_routes {ε : Type} (send : String → String → Option ε) (c : Context ε) :
    (c.Header "X-Gitlab-Event" = "Merge Request Hook" →
      GitlabHandler send c = handleMergeRequestHook send c) ∧
    (c.Header "X-Gitlab-Event" = "Pipeline Hook" →
      GitlabHandler send c = handlePipelineHook send c) ∧
    (c.Header "X-Gitlab-Event" ≠ "Merge Request Hook" →
      c.Header "X-Gitlab-Event" ≠ "Pipeline Hook" →
      GitlabHandler send c = ⟨[Effect.string 200 "OK"], c.WriteString 200 "OK"⟩ ∧
      (c.WriteString 200 "OK" = none →
        GitlabHandler send c = ⟨[Effect.string 200 "OK"], none⟩)) := by
  refine ⟨?_, ?_, ?_⟩
  · intro h
    simp [GitlabHandler, h]
  · intro h
    have h2 : c.Header "X-Gitlab-Event" ≠ "Merge Request Hook" := by
      rw [h]; decide
    simp [GitlabHandler, h]
  · intro h1 h2
    have hr : GitlabHandler send c = ⟨[Effect.string 200 "OK"], c.WriteString 200 "OK"⟩ := by
      simp [GitlabHandler, h1, h2, StatusOK]
    refine ⟨hr, ?_⟩
    intro hw
    rw [hr, hw]

/-- C1 at concrete requests: the empty header value, a case variant and an unrelated value are
answered 200 "OK" without deserializing and without a `send`, also when `send` would fail. -/
theorem GitlabHandler_routes_witness :
    GitlabHandler sendFails (sampleContext "" "open" "success")
      = ⟨[Effect.string 200 "OK"], none⟩ ∧
    GitlabHandler sendFails (sampleContext "merge request hook" "open" "success")
      = ⟨[Effect.string 200 "OK"], none⟩ ∧
    GitlabHandler sendFails (malformedContext "Push Hook")
      = ⟨[Effect.string 200 "OK"], none⟩ ∧
    GitlabHandler sendOk (sampleContext "Merge Request Hook" "merge" "success")
      = handleMergeRequestHook sendOk (sampleContext "Merge Request Hook" "merge" "success") ∧
    GitlabHandler sendOk (sampleContext "Pipeline Hook" "merge" "success")
      = handlePipelineHook sendOk (sampleContext "Pipeline Hook" "merge" "success") :=
  ⟨((GitlabHandler_routes sendFails (sampleContext "" "open" "success")).2.2
      (by decide) (by decide)).2 rfl,
   ((GitlabHandler_routes sendFails (sampleContext "merge request hook" "open" "success")).2.2
      (by decide) (by decide)).2 rfl,
   ((GitlabHandler_routes sendFails (malformedContext "Push Hook")).2.2
      (by decide) (by decide)).2 rfl,
   (GitlabHandler_routes sendOk (sampleContext "Merge Request Hook" "merge" "success")).1
      (by decide),
   (GitlabHandler_routes sendOk (sampleContext "Pipeline Hook" "merge" "success")).2.1
      (by decide)⟩

/-- C1 as stated fails: at a request with the unrelated event "Push Hook" whose response write
fails, `GitlabHandler` writes 200 "OK" and returns the error of the write. -/
theorem GitlabHandler_routes_counterexample :
    GitlabHandler sendOk (writeFailsContext "Push Hook" "open" "success")
      = ⟨[Effect.string 200 "OK"], some "write failed"⟩ ∧
    (GitlabHandler sendOk (writeFailsContext "Push Hook" "open" "success")).err ≠ none := by
  decide

/-! ## Merge requests -/

/-- C2: for a deserialized merge-request event with action "open", `handleMergeRequestHook`
calls `send` exactly once, with the routing key of the request and with content equal to the
six lines of the notification joined by newlines, where the description line shows "无" for the
empty description and the description itself otherwise; the content does not end in a
newline. -/
theorem handleMergeRequestHook_open_content {ε : Type} (send : String → String → Option ε)
    (c : Context ε) (p : mergeRequestPayload) (hb : c.BindMergeRequest = .ok p)
    (ha : p.ObjectAttributes.Action = "open") :
    senderCalls (handleMergeRequestHook send c).effects
      = [(c.Param "key", mergeRequestOpenContent p)] ∧
    mergeRequestOpenContent p
      = String.intercalate "\n" [
          "### [" ++ p.Project.Name ++ "](" ++ p.Project.URL ++ ") 有新的合并请求 [!"
            ++ toString p.ObjectAttributes.MergeRequestID ++ "]("
            ++ p.ObjectAttributes.URL ++ ")",
          "> 标题: " ++ p.ObjectAttributes.Title,
          "> 描述: " ++ (if p.ObjectAttributes.Description = "" then "无"
            else p.ObjectAttributes.Description),
          "> 提交: " ++ p.User.Name ++ "(" ++ p.User.Username ++ ")",
          "> 审核: " ++ String.intercalate " " (p.Assignees.map reviewerToken),
          "> 操作: [[查看](" ++ p.ObjectAttributes.URL ++ ")]"] ∧
    ¬ EndsIn (mergeRequestOpenContent p) "\n" := by
  rw [handleMergeRequestHook_open send c p hb ha, senderCalls_afterSend]
  refine ⟨rfl, mergeRequestOpenContent_eq p, ?_⟩
  have hx : mergeRequestOpenContent p
      = (String.intercalate "\n" [
        "### [" ++ p.Project.Name ++ "](" ++ p.Project.URL ++ ") 有新的合并请求 [!"
          ++ toString p.ObjectAttributes.MergeRequestID ++ "]("
          ++ p.ObjectAttributes.URL ++ ")",
        "> 标题: " ++ p.ObjectAttributes.Title,
        "> 描述: " ++ (if p.ObjectAttributes.Description = "" then "无"
          else p.ObjectAttributes.Description),
        "> 提交: " ++ p.User.Name ++ "(" ++ p.User.Username ++ ")",
        "> 审核: " ++ String.intercalate " " (p.Assignees.map reviewerToken),
        "> 操作: [[查看](" ++ p.ObjectAttributes.URL]) ++ ")]" := by
    rw [mergeRequestOpenContent_eq]
    simp only [String.intercalate, String.intercalate.go]
    apply String.ext
    simp [String.data_append]
  rw [hx]
  exact not_endsIn_newline _

/-- C2 at a sample request: the empty description is shown as "无", and a failing `send` is
still called once with the same content. -/
theorem handleMergeRequestHook_open_content_witness :
    senderCalls (handleMergeRequestHook sendFails
        (sampleContext "Merge Request Hook" "open" "success")).effects
      = [("K", "### [g/p](http://x) 有新的合并请求 [!42](http://x/42)\n> 标题: Login\n"
          ++ "> 描述: 无\n> 提交: A(a)\n> 审核: B(b) C D(c)\n> 操作: [[查看](http://x/42)]")] :=
  (handleMergeRequestHook_open_content sendFails
    (sampleContext "Merge Request Hook" "open" "success") (samplePayload "open") rfl rfl).1

theorem intercalate_go_tokens (acc : String) (a : assignee) (rest : List assignee) :
    String.intercalate.go acc " " ((a :: rest).map reviewerToken)
      = acc ++ " " ++ reviewersText (a :: rest) := by
  induction rest generalizing acc a with
  | nil => simp [String.intercalate.go, reviewersText, reviewerToken]
  | cons b bs ih =>
    have h := ih (acc ++ " " ++ reviewerToken a) b
    simp only [List.map_cons, String.intercalate.go] at h ⊢
    rw [h]
    apply String.ext
    simp [reviewersText, reviewerToken, String.data_append]

theorem intercalate_tokens (l : List assignee) :
    String.intercalate " " (l.map reviewerToken) = reviewersText l := by
  cases l with
  | nil => rfl
  | cons a rest =>
    cases rest with
    | nil => simp [String.intercalate, String.intercalate.go, reviewersText, reviewerToken]
    | cons b bs =>
      simp only [List.map_cons, String.intercalate]
      have h := intercalate_go_tokens (reviewerToken a) b bs
      simp only [List.map_cons] at h
      rw [h]
      apply String.ext
      simp [reviewersText, reviewerToken, String.data_append]

theorem reviewersText_length (l : List assignee) :
    (reviewersText l).length
      = ((l.map fun a => a.Name.length + 1 + a.Username.length + 1).sum + (l.length - 1)) := by
  have h1 : "(".length = 1 := rfl
  have h2 : ")".length = 1 := rfl
  have h3 : " ".length = 1 := rfl
  induction l with
  | nil => rfl
  | cons a rest ih =>
    cases rest with
    | nil => simp [reviewersText, String.length_append, h1, h2]
    | cons b bs =>
      simp only [reviewersText, String.length_append, List.map_cons, List.sum_cons,
        List.length_cons, h1, h2, h3] at ih ⊢
      rw [ih]
      omega

/-- C3: for a deserialized merge-request event with action "open", the fifth of the six lines
of the content sent is "> 审核: " followed by the `Name(Username)` tokens of the reviewers, one
per reviewer and in input order, with a single space between neighbours and none before the
first or after the last; with no reviewer nothing follows "> 审核: ". -/
theorem handleMergeRequestHook_open_reviewers {ε : Type} (send : String → String → Option ε)
    (c : Context ε) (p : mergeRequestPayload) (hb : c.BindMergeRequest = .ok p)
    (ha : p.ObjectAttributes.Action = "open") :
    senderCalls (handleMergeRequestHook send c).effects
      = [(c.Param "key", String.intercalate "\n" [
          "### [" ++ p.Project.Name ++ "](" ++ p.Project.URL ++ ") 有新的合并请求 [!"
            ++ toString p.ObjectAttributes.MergeRequestID ++ "]("
            ++ p.ObjectAttributes.URL ++ ")",
          "> 标题: " ++ p.ObjectAttributes.Title,
          "> 描述: " ++ (if p.ObjectAttributes.Description = "" then "无"
            else p.ObjectAttributes.Description),
          "> 提交: " ++ p.User.Name ++ "(" ++ p.User.Username ++ ")",
          "> 审核: " ++ reviewersText p.Assignees,
          "> 操作: [[查看](" ++ p.ObjectAttributes.URL ++ ")]"])] ∧
    (p.Assignees = [] → "> 审核: " ++ reviewersText p.Assignees = "> 审核: ") ∧
    (reviewersText p.Assignees).length
      = ((p.Assignees.map fun a => a.Name.length + 1 + a.Username.length + 1).sum
          + (p.Assignees.length - 1)) := by
  rw [handleMergeRequestHook_open send c p hb ha, senderCalls_afterSend,
    mergeRequestOpenContent_eq, intercalate_tokens]
  refine ⟨rfl, ?_, ?_⟩
  · intro h
    rw [h]
    rfl
  · exact reviewersText_length p.Assignees

/-- C3 at sample requests with three reviewers (one name holding a space) and with none. -/
theorem handleMergeRequestHook_open_reviewers_witness :
    senderCalls (handleMergeRequestHook sendOk
        (reviewContext [⟨"B", "b"⟩, ⟨"C D", "c"⟩, ⟨"E", "e"⟩])).effects
      = [("K", "### [g/p](http://x) 有新的合并请求 [!42](http://x/42)\n> 标题: Login\n"
          ++ "> 描述: 无\n> 提交: A(a)\n> 审核: B(b) C D(c) E(e)\n"
          ++ "> 操作: [[查看](http://x/42)]")] ∧
    senderCalls (handleMergeRequestHook sendOk (reviewContext [])).effects
      = [("K", "### [g/p](http://x) 有新的合并请求 [!42](http://x/42)\n> 标题: Login\n"
          ++ "> 描述: 无\n> 提交: A(a)\n> 审核: \n> 操作: [[查看](http://x/42)]")] :=
  ⟨(handleMergeRequestHook_open_reviewers sendOk
      (reviewContext [⟨"B", "b"⟩, ⟨"C D", "c"⟩, ⟨"E", "e"⟩])
      { samplePayload "open" with Assignees := [⟨"B", "b"⟩, ⟨"C D", "c"⟩, ⟨"E", "e"⟩] }
      rfl rfl).1,
   (handleMergeRequestHook_open_reviewers sendOk (reviewContext [])
      { samplePayload "open" with Assignees := [] } rfl rfl).1⟩

/-- C4: for a deserialized merge-request event with action "merge", `handleMergeRequestHook`
calls `send` exactly once, with the routing key of the request and with content equal to the
three lines of the "merged" notification joined by newlines; title, description, state and
reviewers do not influence the content; the content contains "已合并", contains "!42" when the
iid is 42, and contains "A(a)" when the user is named "A" with username "a". -/
theorem handleMergeRequestHook_merge_content {ε : Type} (send : String → String → Option ε)
    (c : Context ε) (p : mergeRequestPayload) (hb : c.BindMergeRequest = .ok p)
    (ha : p.ObjectAttributes.Action = "merge") :
    senderCalls (handleMergeRequestHook send c).effects
      = [(c.Param "key", mergeRequestMergeContent p)] ∧
    mergeRequestMergeContent p
      = "### [" ++ p.Project.Name ++ "](" ++ p.Project.URL ++ ") 合并请求 [!"
          ++ toString p.ObjectAttributes.MergeRequestID ++ "](" ++ p.ObjectAttributes.URL
          ++ ") 已合并\n> 合并: " ++ p.User.Name ++ "(" ++ p.User.Username
          ++ ")\n> 操作: [[查看](" ++ p.ObjectAttributes.URL ++ ")]" ∧
    (∀ (title description state : String) (reviewers : List assignee),
      mergeRequestMergeContent
        { p with
          ObjectAttributes :=
            { p.ObjectAttributes with
              Title := title, Description := description, State := state }
          Assignees := reviewers }
        = mergeRequestMergeContent p) ∧
    Occurs "已合并" (mergeRequestMergeContent p) ∧
    (p.ObjectAttributes.MergeRequestID = 42 → Occurs "!42" (mergeRequestMergeContent p)) ∧
    (p.User.Name = "A" → p.User.Username = "a" →
      Occurs "A(a)" (mergeRequestMergeContent p)) := by
  rw [handleMergeRequestHook_merge send c p hb ha, senderCalls_afterSend]
  have hc : mergeRequestMergeContent p
      = "### [" ++ p.Project.Name ++ "](" ++ p.Project.URL ++ ") 合并请求 [!"
          ++ toString p.ObjectAttributes.MergeRequestID ++ "](" ++ p.ObjectAttributes.URL
          ++ ") 已合并\n> 合并: " ++ p.User.Name ++ "(" ++ p.User.Username
          ++ ")\n> 操作: [[查看](" ++ p.ObjectAttributes.URL ++ ")]" := by
    rw [mergeRequestMergeContent_eq]
    simp only [String.intercalate, String.intercalate.go]
    apply String.ext
    simp [String.data_append]
  refine ⟨rfl, hc, ?_, ?_, ?_, ?_⟩
  · intro title description state reviewers
    rfl
  · refine ⟨"### [" ++ p.Project.Name ++ "](" ++ p.Project.URL ++ ") 合并请求 [!"
        ++ toString p.ObjectAttributes.MergeRequestID ++ "](" ++ p.ObjectAttributes.URL
        ++ ") ",
      "\n> 合并: " ++ p.User.Name ++ "(" ++ p.User.Username
        ++ ")\n> 操作: [[查看](" ++ p.ObjectAttributes.URL ++ ")]", ?_⟩
    rw [hc]
    apply String.ext
    simp [String.data_append]
  · intro hid
    refine ⟨"### [" ++ p.Project.Name ++ "](" ++ p.Project.URL ++ ") 合并请求 [",
      "](" ++ p.ObjectAttributes.URL
        ++ ") 已合并\n> 合并: " ++ p.User.Name ++ "(" ++ p.User.Username
        ++ ")\n> 操作: [[查看](" ++ p.ObjectAttributes.URL ++ ")]", ?_⟩
    have h42 : toString (42 : Int) = "42" := by decide
    rw [hc, hid, h42]
    apply String.ext
    simp [String.data_append]
  · intro hn hu
    refine ⟨"### [" ++ p.Project.Name ++ "](" ++ p.Project.URL ++ ") 合并请求 [!"
        ++ toString p.ObjectAttributes.MergeRequestID ++ "](" ++ p.ObjectAttributes.URL
        ++ ") 已合并\n> 合并: ",
      "\n> 操作: [[查看](" ++ p.ObjectAttributes.URL ++ ")]", ?_⟩
    rw [hc, hn, hu]
    apply String.ext
    simp [String.data_append]

/-- C4 at the request of the end-to-end example: action "merge", iid 42, user "A" with
username "a", project "g/p" at "http://x". -/
theorem handleMergeRequestHook_merge_content_witness :
    senderCalls (GitlabHandler sendOk
        (sampleContext "Merge Request Hook" "merge" "success")).effects
      = [("K", "### [g/p](http://x) 合并请求 [!42](http://x/42) 已合并\n> 合并: A(a)\n"
          ++ "> 操作: [[查看](http://x/42)]")] :=
  (handleMergeRequestHook_merge_content sendOk
    (sampleContext "Merge Request Hook" "merge" "success") (samplePayload "merge") rfl rfl).1

/-! ## Pipelines -/

theorem takeWhile_line (a b : List Char) (h : Char.ofNat 10 ∉ a) :
    (a ++ Char.ofNat 10 :: b).takeWhile (fun ch => decide (ch ≠ Char.ofNat 10)) = a := by
  induction a with
  | nil => simp [List.takeWhile]
  | cons x xs ih =>
    have hx : x ≠ Char.ofNat 10 := fun e => h (by simp [e])
    have hxs : Char.ofNat 10 ∉ xs := fun e => h (by simp [e])
    have h2 := ih hxs
    simp only [List.cons_append, List.takeWhile_cons, hx, ne_eq, not_false_eq_true,
      decide_True, if_true] at h2 ⊢
    rw [h2]

theorem firstLine_append (a rest : String) (h : NoNewline a) :
    firstLine (a ++ "\n" ++ rest) = a := by
  apply String.ext
  have hd : (a ++ "\n" ++ rest).data = a.data ++ Char.ofNat 10 :: rest.data := by
    simp [String.data_append]
  simp only [firstLine, hd]
  exact takeWhile_line a.data rest.data h

theorem pipelineContent_parts (p : pipelinePayload) (text cls : String)
    (hd : mapIndex piplineContentDataMap p.ObjectAttributes.Status = ⟨text, cls⟩) :
    pipelineContent p
      = ("仓库" ++ p.Project.Name ++ "的" ++ p.ObjectAttributes.Ref ++ "分支部署" ++ text)
        ++ "\n"
        ++ ("> <font color=\"" ++ cls ++ "\">" ++ p.Commit.Message ++ "</font>" ++ "\n"
          ++ "> <font color=\"comment\">" ++ p.Commit.Author.Email ++ "</font>\n"
          ++ "> 点击进入 [git提交详情页面](" ++ p.Commit.URL ++ ")\n"
          ++ "> 点击进入 [ci构建详情页面](" ++ p.Project.URL ++ "/pipelines/"
          ++ toString p.ObjectAttributes.ID ++ ")") := by
  rw [pipelineContent_eq, hd]
  simp only [String.intercalate, String.intercalate.go]
  apply String.ext
  simp [String.data_append]

theorem noNewline_heading (name ref text : String) (hn : NoNewline name) (hr : NoNewline ref)
    (ht : NoNewline text) : NoNewline ("仓库" ++ name ++ "的" ++ ref ++ "分支部署" ++ text) := by
  unfold NoNewline at *
  simp only [String.data_append, List.mem_append, not_or]
  refine ⟨⟨⟨⟨⟨by decide, hn⟩, by decide⟩, hr⟩, by decide⟩, ht⟩

/-- C5, as amended: for a deserialized pipeline event with status "success", the content passed
to `send` begins with the heading "仓库<project>的<ref>分支部署成功🎉", a newline, and the commit
message wrapped in `<font color="info">`; with status "failed" the heading ends in
"分支部署失败🤔" and the commit message is wrapped in `<font color="warning">`. The heading is the
first line of the content (its text up to the first newline) whenever project name and ref
hold no newline. -/
theorem handlePipelineHook_status_text {ε : Type} (send : String → String → Option ε)
    (c : Context ε) (p : pipelinePayload) (hb : c.BindPipeline = .ok p) :
    (p.ObjectAttributes.Status = "success" →
      senderCalls (handlePipelineHook send c).effects
        = [(c.Param "key", pipelineContent p)] ∧
      (∃ rest : String, pipelineContent p
        = "仓库" ++ p.Project.Name ++ "的" ++ p.ObjectAttributes.Ref ++ "分支部署成功🎉"
          ++ "\n" ++ ("> <font color=\"info\">" ++ p.Commit.Message ++ "</font>" ++ "\n"
          ++ rest)) ∧
      (NoNewline p.Project.Name → NoNewline p.ObjectAttributes.Ref →
        firstLine (pipelineContent p)
          = "仓库" ++ p.Project.Name ++ "的" ++ p.ObjectAttributes.Ref ++ "分支部署成功🎉")) ∧
    (p.ObjectAttributes.Status = "failed" →
      senderCalls (handlePipelineHook send c).effects
        = [(c.Param "key", pipelineContent p)] ∧
      (∃ rest : String, pipelineContent p
        = "仓库" ++ p.Project.Name ++ "的" ++ p.ObjectAttributes.Ref ++ "分支部署失败🤔"
          ++ "\n" ++ ("> <font color=\"warning\">" ++ p.Commit.Message ++ "</font>" ++ "\n"
          ++ rest)) ∧
      (NoNewline p.Project.Name → NoNewline p.ObjectAttributes.Ref →
        firstLine (pipelineContent p)
          = "仓库" ++ p.Project.Name ++ "的" ++ p.ObjectAttributes.Ref ++ "分支部署失败🤔")) := by
  constructor
  · intro hs
    have hd : mapIndex piplineContentDataMap p.ObjectAttributes.Status = ⟨"成功🎉", "info"⟩ := by
      rw [hs]; exact mapIndex_success
    have hc := pipelineContent_parts p _ _ hd
    refine ⟨?_, ?_, ?_⟩
    · rw [handlePipelineHook_known send c p hb (Or.inl hs), senderCalls_afterSend]
    · refine ⟨"> <font color=\"comment\">" ++ p.Commit.Author.Email ++ "</font>\n"
          ++ "> 点击进入 [git提交详情页面](" ++ p.Commit.URL ++ ")\n"
          ++ "> 点击进入 [ci构建详情页面](" ++ p.Project.URL ++ "/pipelines/"
          ++ toString p.ObjectAttributes.ID ++ ")", ?_⟩
      rw [hc]
      apply String.ext
      simp [String.data_append]
    · intro hn hr
      have hh : "仓库" ++ p.Project.Name ++ "的" ++ p.ObjectAttributes.Ref ++ "分支部署成功🎉"
          = "仓库" ++ p.Project.Name ++ "的" ++ p.ObjectAttributes.Ref ++ "分支部署"
            ++ "成功🎉" := by
        apply String.ext
        simp [String.data_append]
      rw [hc, hh]
      exact firstLine_append _ _ (noNewline_heading _ _ _ hn hr (by decide))
  · intro hs
    have hd : mapIndex piplineContentDataMap p.ObjectAttributes.Status
        = ⟨"失败🤔", "warning"⟩ := by
      rw [hs]; exact mapIndex_failed
    have hc := pipelineContent_parts p _ _ hd
    refine ⟨?_, ?_, ?_⟩
    · rw [handlePipelineHook_known send c p hb (Or.inr hs), senderCalls_afterSend]
    · refine ⟨"> <font color=\"comment\">" ++ p.Commit.Author.Email ++ "</font>\n"
          ++ "> 点击进入 [git提交详情页面](" ++ p.Commit.URL ++ ")\n"
          ++ "> 点击进入 [ci构建详情页面](" ++ p.Project.URL ++ "/pipelines/"
          ++ toString p.ObjectAttributes.ID ++ ")", ?_⟩
      rw [hc]
      apply String.ext
      simp [String.data_append]
    · intro hn hr
      have hh : "仓库" ++ p.Project.Name ++ "的" ++ p.ObjectAttributes.Ref ++ "分支部署失败🤔"
          = "仓库" ++ p.Project.Name ++ "的" ++ p.ObjectAttributes.Ref ++ "分支部署"
            ++ "失败🤔" := by
        apply String.ext
        simp [String.data_append]
      rw [hc, hh]
      exact firstLine_append _ _ (noNewline_heading _ _ _ hn hr (by decide))

/-- C5 at sample requests: the first line of the content sent for "success" and for
"failed". -/
theorem handlePipelineHook_status_text_witness :
    firstLine (pipelineContent (samplePipeline "success")) = "仓库g/p的main分支部署成功🎉" ∧
    firstLine (pipelineContent (samplePipeline "failed")) = "仓库g/p的main分支部署失败🤔" :=
  ⟨((handlePipelineHook_status_text sendOk (sampleContext "Pipeline Hook" "open" "success")
      (samplePipeline "success") rfl).1 rfl).2.2 (by decide) (by decide),
   ((handlePipelineHook_status_text sendOk (sampleContext "Pipeline Hook" "open" "failed")
      (samplePipeline "failed") rfl).2 rfl).2.2 (by decide) (by decide)⟩

/-- C5 as stated fails: at a "success" event whose ref is "release", a newline, "v2", the
content passed to `send` has the first line "仓库g/p的release", which does not end in
"分支部署成功🎉". -/
theorem handlePipelineHook_status_text_counterexample :
    senderCalls (handlePipelineHook sendOk newlineRefContext).effects
      = [("K", pipelineContent newlineRefPipeline)] ∧
    firstLine (pipelineContent newlineRefPipeline) = "仓库g/p的release" ∧
    ¬ EndsIn (firstLine (pipelineContent newlineRefPipeline)) "分支部署成功🎉" := by
  have hf : firstLine (pipelineContent newlineRefPipeline) = "仓库g/p的release" := by decide
  refine ⟨?_, hf, ?_⟩
  · rw [handlePipelineHook_known sendOk newlineRefContext newlineRefPipeline rfl (Or.inl rfl),
      senderCalls_afterSend]
    rfl
  · rw [hf]
    rintro ⟨before, h⟩
    have h2 := congrArg (fun t : String => t.data.getLast?) h
    simp [String.data_append] at h2

/-- C6, as amended: for a deserialized pipeline event, `handlePipelineHook` calls `send`
exactly when the status is a key of `piplineContentDataMap`. The keys are "success" and
"failed", so the guard of the handler agrees with membership in the table and the value
indexed under the guard is the stored one, never the zero value. For every other status `send`
is not called, the response is 200 "OK" and the returned error is the one `c.String` returns,
so none when the write succeeds. -/
theorem handlePipelineHook_sends_iff_key {ε : Type} (send : String → String → Option ε)
    (c : Context ε) (p : pipelinePayload) (hb : c.BindPipeline = .ok p) :
    piplineContentDataMap.map Prod.fst = ["success", "failed"] ∧
    (senderCalls (handlePipelineHook send c).effects ≠ [] ↔
      p.ObjectAttributes.Status ∈ piplineContentDataMap.map Prod.fst) ∧
    ((p.ObjectAttributes.Status = "success" ∨ p.ObjectAttributes.Status = "failed") ↔
      p.ObjectAttributes.Status ∈ piplineContentDataMap.map Prod.fst) ∧
    (p.ObjectAttributes.Status ∈ piplineContentDataMap.map Prod.fst →
      mapLookup piplineContentDataMap p.ObjectAttributes.Status
        = some (mapIndex piplineContentDataMap p.ObjectAttributes.Status) ∧
      mapIndex piplineContentDataMap p.ObjectAttributes.Status ≠ ⟨"", ""⟩) ∧
    (p.ObjectAttributes.Status ∉ piplineContentDataMap.map Prod.fst →
      handlePipelineHook send c
        = ⟨[Effect.bind .pipeline, Effect.string 200 "OK"], c.WriteString 200 "OK"⟩) := by
  have hk : ∀ s : String, s ∈ piplineContentDataMap.map Prod.fst ↔
      (s = "success" ∨ s = "failed") := by
    intro s
    simp [piplineContentDataMap]
  refine ⟨rfl, ?_, (hk _).symm, ?_, ?_⟩
  · rw [hk]
    by_cases hs : p.ObjectAttributes.Status = "success" ∨ p.ObjectAttributes.Status = "failed"
    · rw [handlePipelineHook_known send c p hb hs, senderCalls_afterSend]
      simp [hs]
    · rw [handlePipelineHook_other send c p hb hs]
      simp [hs, senderCalls]
  · intro hm
    rcases (hk _).1 hm with hs | hs <;> rw [hs] <;> decide
  · intro hm
    exact handlePipelineHook_other send c p hb (fun hs => hm ((hk _).2 hs))

/-- C6 at sample requests: the statuses "running", "" and "Success" lead to no `send`, also
when `send` would fail, and "success" leads to one. -/
theorem handlePipelineHook_sends_iff_key_witness :
    handlePipelineHook sendFails (sampleContext "Pipeline Hook" "open" "running")
      = ⟨[Effect.bind .pipeline, Effect.string 200 "OK"], none⟩ ∧
    handlePipelineHook sendFails (sampleContext "Pipeline Hook" "open" "")
      = ⟨[Effect.bind .pipeline, Effect.string 200 "OK"], none⟩ ∧
    handlePipelineHook sendFails (sampleContext "Pipeline Hook" "open" "Success")
      = ⟨[Effect.bind .pipeline, Effect.string 200 "OK"], none⟩ ∧
    senderCalls (handlePipelineHook sendFails
      (sampleContext "Pipeline Hook" "open" "success")).effects ≠ [] :=
  ⟨(handlePipelineHook_sends_iff_key sendFails (sampleContext "Pipeline Hook" "open" "running")
      (samplePipeline "running") rfl).2.2.2.2 (by decide),
   (handlePipelineHook_sends_iff_key sendFails (sampleContext "Pipeline Hook" "open" "")
      (samplePipeline "") rfl).2.2.2.2 (by decide),
   (handlePipelineHook_sends_iff_key sendFails (sampleContext "Pipeline Hook" "open" "Success")
      (samplePipeline "Success") rfl).2.2.2.2 (by decide),
   (handlePipelineHook_sends_iff_key sendFails (sampleContext "Pipeline Hook" "open" "success")
      (samplePipeline "success") rfl).2.1.2 (by decide)⟩

/-- C6 as stated fails: at a pipeline event with status "running" whose response write fails,
`handlePipelineHook` calls no `send`, writes 200 "OK" and returns the error of the write. -/
theorem handlePipelineHook_sends_iff_key_counterexample :
    handlePipelineHook sendOk (writeFailsContext "Pipeline Hook" "open" "running")
      = ⟨[Effect.bind .pipeline, Effect.string 200 "OK"], some "write failed"⟩ ∧
    (handlePipelineHook sendOk (writeFailsContext "Pipeline Hook" "open" "running")).err
      ≠ none := by
  decide

/-- C8: for a deserialized pipeline event with status "success" or "failed",
`handlePipelineHook` calls `send` exactly once, with the routing key of the request and with
content equal to the five lines of the notification joined by newlines, where status text and
colour class are the table entry of the status and the pipeline link is the project URL
followed by "/pipelines/" and the pipeline id in decimal, nothing in between. -/
theorem handlePipelineHook_content {ε : Type} (send : String → String → Option ε)
    (c : Context ε) (p : pipelinePayload) (hb : c.BindPipeline = .ok p)
    (hs : p.ObjectAttributes.Status = "success" ∨ p.ObjectAttributes.Status = "failed") :
    senderCalls (handlePipelineHook send c).effects
      = [(c.Param "key", pipelineContent p)] ∧
    ∃ d : piplineContentData,
      mapLookup piplineContentDataMap p.ObjectAttributes.Status = some d ∧
      pipelineContent p = String.intercalate "\n" [
        "仓库" ++ p.Project.Name ++ "的" ++ p.ObjectAttributes.Ref ++ "分支部署" ++ d.Text,
        "> <font color=\"" ++ d.ClassName ++ "\">" ++ p.Commit.Message ++ "</font>",
        "> <font color=\"comment\">" ++ p.Commit.Author.Email ++ "</font>",
        "> 点击进入 [git提交详情页面](" ++ p.Commit.URL ++ ")",
        "> 点击进入 [ci构建详情页面]("
          ++ (p.Project.URL ++ "/pipelines/" ++ toString p.ObjectAttributes.ID) ++ ")"] := by
  refine ⟨?_, mapIndex piplineContentDataMap p.ObjectAttributes.Status, ?_, ?_⟩
  · rw [handlePipelineHook_known send c p hb hs, senderCalls_afterSend]
  · rcases hs with hs | hs <;> rw [hs] <;> decide
  · rw [pipelineContent_eq]
    simp only [String.intercalate, String.intercalate.go]
    apply String.ext
    simp [String.data_append]

/-- C8 at sample requests with status "success" and "failed", pipeline id 15. -/
theorem handlePipelineHook_content_witness :
    senderCalls (handlePipelineHook sendOk
        (sampleContext "Pipeline Hook" "open" "success")).effects
      = [("K", "仓库g/p的main分支部署成功🎉\n> <font color=\"info\">fix</font>\n"
          ++ "> <font color=\"comment\">z@example.com</font>\n"
          ++ "> 点击进入 [git提交详情页面](http://x/c/1)\n"
          ++ "> 点击进入 [ci构建详情页面](http://x/pipelines/15)")] ∧
    senderCalls (handlePipelineHook sendFails
        (sampleContext "Pipeline Hook" "open" "failed")).effects
      = [("K", "仓库g/p的main分支部署失败🤔\n> <font color=\"warning\">fix</font>\n"
          ++ "> <font color=\"comment\">z@example.com</font>\n"
          ++ "> 点击进入 [git提交详情页面](http://x/c/1)\n"
          ++ "> 点击进入 [ci构建详情页面](http://x/pipelines/15)")] :=
  ⟨(handlePipelineHook_content sendOk (sampleContext "Pipeline Hook" "open" "success")
      (samplePipeline "success") rfl (Or.inl rfl)).1,
   (handlePipelineHook_content sendFails (sampleContext "Pipeline Hook" "open" "failed")
      (samplePipeline "failed") rfl (Or.inr rfl)).1⟩

/-! ## No-ops and errors -/

theorem senderCalls_handleMergeRequestHook_le {ε : Type} (send : String → String → Option ε)
    (c : Context ε) : (senderCalls (handleMergeRequestHook send c).effects).length ≤ 1 := by
  cases hb : c.BindMergeRequest with
  | error err => simp [handleMergeRequestHook_bind_error send c err hb, senderCalls]
  | ok p =>
    by_cases ho : p.ObjectAttributes.Action = "open"
    · simp [handleMergeRequestHook_open send c p hb ho, senderCalls_afterSend]
    · by_cases hm : p.ObjectAttributes.Action = "merge"
      · simp [handleMergeRequestHook_merge send c p hb hm, senderCalls_afterSend]
      · simp [handleMergeRequestHook_other send c p hb ho hm, senderCalls]

/-- C7, as amended: for a deserialized merge-request event whose action is neither "open" nor
"merge", `handleMergeRequestHook` only deserializes and answers 200 "OK": `send` is not called
and the returned error is the one `c.String` returns, so none when the write succeeds. For
every request, whatever the action, `send` is called at most once. -/
theorem handleMergeRequestHook_unknown_action {ε : Type} (send : String → String → Option ε)
    (c : Context ε) :
    (∀ p : mergeRequestPayload, c.BindMergeRequest = .ok p →
      p.ObjectAttributes.Action ≠ "open" → p.ObjectAttributes.Action ≠ "merge" →
      handleMergeRequestHook send c
        = ⟨[Effect.bind .mergeRequest, Effect.string 200 "OK"], c.WriteString 200 "OK"⟩) ∧
    (senderCalls (handleMergeRequestHook send c).effects).length ≤ 1 :=
  ⟨fun p hb ho hm => handleMergeRequestHook_other send c p hb ho hm,
   senderCalls_handleMergeRequestHook_le send c⟩

/-- C7 at sample requests: the actions "", "update", "close" and "Open" lead to no `send`,
also when `send` would fail. -/
theorem handleMergeRequestHook_unknown_action_witness :
    handleMergeRequestHook sendFails (sampleContext "Merge Request Hook" "" "success")
      = ⟨[Effect.bind .mergeRequest, Effect.string 200 "OK"], none⟩ ∧
    handleMergeRequestHook sendFails (sampleContext "Merge Request Hook" "update" "success")
      = ⟨[Effect.bind .mergeRequest, Effect.string 200 "OK"], none⟩ ∧
    handleMergeRequestHook sendFails (sampleContext "Merge Request Hook" "close" "success")
      = ⟨[Effect.bind .mergeRequest, Effect.string 200 "OK"], none⟩ ∧
    handleMergeRequestHook sendFails (sampleContext "Merge Request Hook" "Open" "success")
      = ⟨[Effect.bind .mergeRequest, Effect.string 200 "OK"], none⟩ :=
  ⟨(handleMergeRequestHook_unknown_action sendFails
      (sampleContext "Merge Request Hook" "" "success")).1
      (samplePayload "") rfl (by decide) (by decide),
   (handleMergeRequestHook_unknown_action sendFails
      (sampleContext "Merge Request Hook" "update" "success")).1
      (samplePayload "update") rfl (by decide) (by decide),
   (handleMergeRequestHook_unknown_action sendFails
      (sampleContext "Merge Request Hook" "close" "success")).1
      (samplePayload "close") rfl (by decide) (by decide),
   (handleMergeRequestHook_unknown_action sendFails
      (sampleContext "Merge Request Hook" "Open" "success")).1
      (samplePayload "Open") rfl (by decide) (by decide)⟩

/-- C7 as stated fails: at a merge-request event with action "update" whose response write
fails, `handleMergeRequestHook` calls no `send`, writes 200 "OK" and returns the error of the
write. -/
theorem handleMergeRequestHook_unknown_action_counterexample :
    handleMergeRequestHook sendOk (writeFailsContext "Merge Request Hook" "update" "success")
      = ⟨[Effect.bind .mergeRequest, Effect.string 200 "OK"], some "write failed"⟩ ∧
    (handleMergeRequestHook sendOk
      (writeFailsContext "Merge Request Hook" "update" "success")).err ≠ none := by
  decide

theorem deliveryContract_afterSend {ε : Type} (send : String → String → Option ε)
    (written : Option ε) (target : BindTarget) (key content : String) :
    DeliveryContract send written (afterSend send written target key content) := by
  unfold DeliveryContract
  cases h : send key content with
  | none =>
    have hr : afterSend send written target key content
        = ⟨[Effect.bind target, Effect.send key content, Effect.string 200 "OK"],
            written⟩ := by
      simp [afterSend, h]
    rw [hr]
    have hall : ∀ k m, (k, m) ∈ senderCalls
        ([Effect.bind target, Effect.send key content, Effect.string 200 "OK"] :
          List (Effect ε)) →
        send k m = none := by
      intro k m hm
      simp [senderCalls] at hm
      rw [hm.1, hm.2, h]
    refine ⟨⟨fun _ => hall, fun _ => rfl⟩, fun _ => rfl, ?_, ?_⟩
    · intro hw
      exact ⟨fun _ => hall, fun _ => ⟨rfl, hw⟩⟩
    · intro k m e hm he
      rw [hall k m hm] at he
      cases he
  | some err =>
    have hr : afterSend send written target key content
        = ⟨[Effect.bind target, Effect.send key content, Effect.logError err],
            some err⟩ := by
      simp [afterSend, h]
    rw [hr]
    have hmem : (key, content) ∈ senderCalls
        ([Effect.bind target, Effect.send key content, Effect.logError err] :
          List (Effect ε)) := by
      simp [senderCalls]
    have hno : ¬ ∀ k m, (k, m) ∈ senderCalls
        ([Effect.bind target, Effect.send key content, Effect.logError err] :
          List (Effect ε)) →
        send k m = none := by
      intro hall
      have h2 := hall key content hmem
      rw [h] at h2
      cases h2
    refine ⟨⟨fun hresp => ?_, fun hall => absurd hall hno⟩, fun hall => absurd hall hno,
      fun _ => ⟨fun hresp => ?_, fun hall => absurd hall hno⟩, ?_⟩
    · simp [responses] at hresp
    · simp [responses] at hresp
    · intro k m e hm he
      simp [senderCalls] at hm
      rw [hm.1, hm.2, h] at he
      refine ⟨he, rfl, ?_⟩
      rw [hm.1, hm.2]
      rfl

theorem deliveryContract_noSend {ε : Type} (send : String → String → Option ε)
    (written : Option ε) (target : BindTarget) :
    DeliveryContract send written
      ⟨[Effect.bind target, Effect.string 200 "OK"], written⟩ := by
  unfold DeliveryContract
  refine ⟨⟨fun _ k m hm => ?_, fun _ => rfl⟩, fun _ => rfl, ?_, ?_⟩
  · simp [senderCalls] at hm
  · intro hw
    refine ⟨fun _ k m hm => ?_, fun _ => ⟨rfl, hw⟩⟩
    simp [senderCalls] at hm
  · intro k m e hm
    simp [senderCalls] at hm

/-- C9, as amended: for a deserialized payload, each of `handleMergeRequestHook` and
`handlePipelineHook` writes the response 200 "OK" if and only if `send` was not called or its
call succeeded, and then returns the error `c.String` returns; so when the write succeeds the
handler answers 200 "OK" with no error exactly in that case. When the `send` call fails the
handler returns the error of `send`, writes no response and makes no further `send` call. -/
theorem handlers_delivery_contract {ε : Type} (send : String → String → Option ε)
    (c : Context ε) :
    (∀ p : mergeRequestPayload, c.BindMergeRequest = .ok p →
      (responses (handleMergeRequestHook send c).effects = [(200, "OK")] ↔
        ∀ k m, (k, m) ∈ senderCalls (handleMergeRequestHook send c).effects →
          send k m = none) ∧
      ((∀ k m, (k, m) ∈ senderCalls (handleMergeRequestHook send c).effects →
          send k m = none) →
        (handleMergeRequestHook send c).err = c.WriteString 200 "OK") ∧
      (c.WriteString 200 "OK" = none →
        ((responses (handleMergeRequestHook send c).effects = [(200, "OK")] ∧
            (handleMergeRequestHook send c).err = none) ↔
          ∀ k m, (k, m) ∈ senderCalls (handleMergeRequestHook send c).effects →
            send k m = none)) ∧
      (∀ k m e, (k, m) ∈ senderCalls (handleMergeRequestHook send c).effects →
        send k m = some e →
        (handleMergeRequestHook send c).err = some e ∧
        responses (handleMergeRequestHook send c).effects = [] ∧
        senderCalls (handleMergeRequestHook send c).effects = [(k, m)])) ∧
    (∀ p : pipelinePayload, c.BindPipeline = .ok p →
      (responses (handlePipelineHook send c).effects = [(200, "OK")] ↔
        ∀ k m, (k, m) ∈ senderCalls (handlePipelineHook send c).effects →
          send k m = none) ∧
      ((∀ k m, (k, m) ∈ senderCalls (handlePipelineHook send c).effects →
          send k m = none) →
        (handlePipelineHook send c).err = c.WriteString 200 "OK") ∧
      (c.WriteString 200 "OK" = none →
        ((responses (handlePipelineHook send c).effects = [(200, "OK")] ∧
            (handlePipelineHook send c).err = none) ↔
          ∀ k m, (k, m) ∈ senderCalls (handlePipelineHook send c).effects →
            send k m = none)) ∧
      (∀ k m e, (k, m) ∈ senderCalls (handlePipelineHook send c).effects →
        send k m = some e →
        (handlePipelineHook send c).err = some e ∧
        responses (handlePipelineHook send c).effects = [] ∧
        senderCalls (handlePipelineHook send c).effects = [(k, m)])) := by
  constructor
  · intro p hb
    show DeliveryContract send (c.WriteString 200 "OK") (handleMergeRequestHook send c)
    by_cases ho : p.ObjectAttributes.Action = "open"
    · rw [handleMergeRequestHook_open send c p hb ho]
      exact deliveryContract_afterSend _ _ _ _ _
    · by_cases hm : p.ObjectAttributes.Action = "merge"
      · rw [handleMergeRequestHook_merge send c p hb hm]
        exact deliveryContract_afterSend _ _ _ _ _
      · rw [handleMergeRequestHook_other send c p hb ho hm]
        exact deliveryContract_noSend _ _ _
  · intro p hb
    show DeliveryContract send (c.WriteString 200 "OK") (handlePipelineHook send c)
    by_cases hs : p.ObjectAttributes.Status = "success" ∨ p.ObjectAttributes.Status = "failed"
    · rw [handlePipelineHook_known send c p hb hs]
      exact deliveryContract_afterSend _ _ _ _ _
    · rw [handlePipelineHook_other send c p hb hs]
      exact deliveryContract_noSend _ _ _

/-- C9 at sample requests whose delivery fails: both handlers return the error of `send` and
write no response. -/
theorem handlers_delivery_contract_witness :
    (handleMergeRequestHook sendFails
        (sampleContext "Merge Request Hook" "open" "success")).err = some "delivery failed" ∧
    responses (handleMergeRequestHook sendFails
        (sampleContext "Merge Request Hook" "open" "success")).effects = [] ∧
    (handlePipelineHook sendFails
        (sampleContext "Pipeline Hook" "open" "failed")).err = some "delivery failed" ∧
    responses (handlePipelineHook sendFails
        (sampleContext "Pipeline Hook" "open" "failed")).effects = [] :=
  ⟨(((handlers_delivery_contract sendFails
        (sampleContext "Merge Request Hook" "open" "success")).1
        (samplePayload "open") rfl).2.2.2
        "K" (mergeRequestOpenContent (samplePayload "open")) "delivery failed"
        (by
          rw [handleMergeRequestHook_open _ _ (samplePayload "open") rfl rfl,
            senderCalls_afterSend]
          exact List.mem_singleton.2 rfl) rfl).1,
   (((handlers_delivery_contract sendFails
        (sampleContext "Merge Request Hook" "open" "success")).1
        (samplePayload "open") rfl).2.2.2
        "K" (mergeRequestOpenContent (samplePayload "open")) "delivery failed"
        (by
          rw [handleMergeRequestHook_open _ _ (samplePayload "open") rfl rfl,
            senderCalls_afterSend]
          exact List.mem_singleton.2 rfl) rfl).2.1,
   (((handlers_delivery_contract sendFails
        (sampleContext "Pipeline Hook" "open" "failed")).2
        (samplePipeline "failed") rfl).2.2.2
        "K" (pipelineContent (samplePipeline "failed")) "delivery failed"
        (by
          rw [handlePipelineHook_known _ _ (samplePipeline "failed") rfl (Or.inr rfl),
            senderCalls_afterSend]
          exact List.mem_singleton.2 rfl) rfl).1,
   (((handlers_delivery_contract sendFails
        (sampleContext "Pipeline Hook" "open" "failed")).2
        (samplePipeline "failed") rfl).2.2.2
        "K" (pipelineContent (samplePipeline "failed")) "delivery failed"
        (by
          rw [handlePipelineHook_known _ _ (samplePipeline "failed") rfl (Or.inr rfl),
            senderCalls_afterSend]
          exact List.mem_singleton.2 rfl) rfl).2.1⟩

/-- C9 as stated fails: at a merge-request "open" event whose delivery succeeds and whose
response write fails, `handleMergeRequestHook` writes 200 "OK" and returns the error of the
write, so "200 OK with no error" does not hold although the one `send` call succeeded. -/
theorem handlers_delivery_contract_counterexample :
    responses (handleMergeRequestHook sendOk
        (writeFailsContext "Merge Request Hook" "open" "success")).effects = [(200, "OK")] ∧
    (handleMergeRequestHook sendOk
        (writeFailsContext "Merge Request Hook" "open" "success")).err = some "write failed" ∧
    ¬ ((responses (handleMergeRequestHook sendOk
            (writeFailsContext "Merge Request Hook" "open" "success")).effects = [(200, "OK")] ∧
          (handleMergeRequestHook sendOk
            (writeFailsContext "Merge Request Hook" "open" "success")).err = none) ↔
        ∀ k m, (k, m) ∈ senderCalls (handleMergeRequestHook sendOk
            (writeFailsContext "Merge Request Hook" "open" "success")).effects →
          sendOk k m = none) := by
  have he : (handleMergeRequestHook sendOk
      (writeFailsContext "Merge Request Hook" "open" "success")).err = some "write failed" := by
    rw [handleMergeRequestHook_open _ _ (samplePayload "open") rfl rfl]
    rfl
  refine ⟨?_, he, ?_⟩
  · rw [handleMergeRequestHook_open _ _ (samplePayload "open") rfl rfl]
    rfl
  · intro h
    have h2 := (h.2 (fun _ _ _ => rfl)).2
    rw [he] at h2
    cases h2

/-- C10: when deserialization of the request body fails, `handleMergeRequestHook` and
`handlePipelineHook` each return the deserialization error at once: the `Bind` call is the only
effect, so `send` is not called and no response is written. -/
theorem handlers_bind_error {ε : Type} (send : String → String → Option ε) (c : Context ε) :
    (∀ err : ε, c.BindMergeRequest = .error err →
      handleMergeRequestHook send c = ⟨[Effect.bind .mergeRequest], some err⟩) ∧
    (∀ err : ε, c.BindPipeline = .error err →
      handlePipelineHook send c = ⟨[Effect.bind .pipeline], some err⟩) :=
  ⟨fun err hb => handleMergeRequestHook_bind_error send c err hb,
   fun err hb => handlePipelineHook_bind_error send c err hb⟩

/-- C10 at a sample request with a malformed body, through `GitlabHandler`. -/
theorem handlers_bind_error_witness :
    GitlabHandler sendOk (malformedContext "Merge Request Hook")
      = ⟨[Effect.bind .mergeRequest], some "bad body"⟩ ∧
    GitlabHandler sendOk (malformedContext "Pipeline Hook")
      = ⟨[Effect.bind .pipeline], some "bad body"⟩ :=
  ⟨(handlers_bind_error sendOk (malformedContext "Merge Request Hook")).1 "bad body" rfl,
   (handlers_bind_error sendOk (malformedContext "Pipeline Hook")).2 "bad body" rfl⟩

end Wechat
